import Mathlib

/-!
Shallow embedding of `src/nanobot/agent/tools/mcp_search.py`
(`MCPWebSearchTool`): the DuckDuckGo JSON fallback search, its result
extraction and formatting, the count clamping in `execute`, and the
instance state (`max_results`, `_process`, `_initialized`).

HTTP I/O is modelled as an explicit outcome parameter: the single
outbound request either yields a parsed JSON payload or raises, which the
Python code catches (`HttpOutcome.failure` carries `str(e)`).  Python
strings are Lean `String`s; `dict.get` with a default is a total field
(absent maps to the default) except where present-but-empty must be
distinguished from absent (`Heading`), where `Option String` is used.
-/

namespace Nanobot

/-- A normalized search record, as built by `_search_fallback`
(`{"title": ..., "url": ..., "description": ...}`). -/
structure SearchResult where
  title : String
  url : String
  description : String
deriving DecidableEq, Repr

/-- One entry of the payload's `RelatedTopics` list.  `hasTopics` models
the Python membership test `"Topics" in topic` (a category grouping);
`text` models `topic.get("Text", "")` and `firstURL` models
`topic.get("FirstURL", "")`. -/
structure DDGTopic where
  hasTopics : Bool
  text : String
  firstURL : String
deriving DecidableEq, Repr

/-- The parsed DuckDuckGo JSON payload, restricted to the fields the code
reads.  `abstract` is `data.get("Abstract")` with `""` for absent (Python
truthiness of the `if data.get("Abstract"):` guard is emptiness of the
string); `heading` keeps absent distinct from present because the code
uses `data.get("Heading", query)`. -/
structure DDGData where
  abstract : String
  heading : Option String
  abstractURL : String
  relatedTopics : List DDGTopic
deriving DecidableEq, Repr

/-- Outcome of the single HTTP GET in `_search_fallback`: either a parsed
payload, or an exception (transport error, non-2xx via
`raise_for_status`, JSON parse error) caught by the enclosing
`except Exception as e`, carrying `str(e)`. -/
inductive HttpOutcome where
  | success : DDGData → HttpOutcome
  | failure : String → HttpOutcome
deriving DecidableEq, Repr

/-- The related-topics loop of `_search_fallback` (lines 175-183):
`for topic in ...: if "Topics" in topic: continue; results.append(...)`.
The caller passes the already-sliced list. -/
def topicsLoop : List DDGTopic → List SearchResult
  | [] => []
  | t :: ts =>
    if t.hasTopics then topicsLoop ts
    else { title := t.text, url := t.firstURL, description := t.text } :: topicsLoop ts

/-- Result extraction of `_search_fallback` (lines 164-183): the optional
abstract record first, then the loop over `data.get("RelatedTopics", [])[:count]`. -/
def extractResults (query : String) (data : DDGData) (count : Nat) : List SearchResult :=
  (if data.abstract = "" then []
   else [{ title := data.heading.getD query, url := data.abstractURL,
           description := data.abstract }])
  ++ topicsLoop (data.relatedTopics.take count)

/-- `.replace("<br>", " ")` specialised to the fixed pattern the code
uses, on the character list: every occurrence of `<br>` becomes one
space, scanning left to right without overlap, exactly as Python
`str.replace`. -/
def stripBr : List Char → List Char
  | '<' :: 'b' :: 'r' :: '>' :: rest => ' ' :: stripBr rest
  | c :: rest => c :: stripBr rest
  | [] => []

/-- Python `str.strip()` on the character list: drop whitespace from both
ends. -/
def trimChars (l : List Char) : List Char :=
  ((l.dropWhile Char.isWhitespace).reverse.dropWhile Char.isWhitespace).reverse

/-- The per-field text cleanup of the formatting loop:
`.replace("<br>", " ").strip()`. -/
def cleanText (s : String) : String :=
  String.mk (trimChars (stripBr s.toList))

/-- Python slicing `s[:n]` on a string: the first `n` characters. -/
def takeChars (s : String) (n : Nat) : String :=
  String.mk (s.toList.take n)

/-- The formatting loop of `_search_fallback` (lines 189-199), over the
already-sliced `results[:count]`, with 1-based enumeration index `i`:
a `f"{i}. {title[:100]}"` line when the cleaned title is non-empty, an
indented URL line when the url is non-empty, and an indented
`desc[:150]` line when the cleaned description is non-empty and differs
from the cleaned title. -/
def entryLines : Nat → List SearchResult → List String
  | _, [] => []
  | i, r :: rs =>
    ((if cleanText r.title = "" then []
      else [toString i ++ ". " ++ takeChars (cleanText r.title) 100]) ++
     (if r.url = "" then [] else ["   " ++ r.url]) ++
     (if cleanText r.description ≠ "" ∧ cleanText r.description ≠ cleanText r.title then
        ["   " ++ takeChars (cleanText r.description) 150]
      else []))
    ++ entryLines (i + 1) rs

/-- The list of output lines: the header `f"Results for: {query}\n"`
followed by the per-result lines over `results[:count]`. -/
def formatLines (query : String) (results : List SearchResult) (count : Nat) : List String :=
  ("Results for: " ++ query ++ "\n") :: entryLines 1 (results.take count)

/-- Python `"\n".join(lines)`. -/
def joinNL : List String → String
  | [] => ""
  | [a] => a
  | a :: b :: rest => a ++ "\n" ++ joinNL (b :: rest)

/-- The rendered text `"\n".join(lines)` of `_search_fallback`'s success
path with a non-empty result list. -/
def formatResults (query : String) (results : List SearchResult) (count : Nat) : String :=
  joinNL (formatLines query results count)

/-- `_search_fallback(query, count)` (lines 136-203) as a function of the
HTTP outcome: on an exception, `f"Search unavailable: {e}"`; on a
payload, extract results, return `f"No results found for: {query}"` when
empty and the formatted listing otherwise. -/
def searchFallback (query : String) (count : Nat) (outcome : HttpOutcome) : String :=
  match outcome with
  | .failure e => "Search unavailable: " ++ e
  | .success data =>
    let results := extractResults query data count
    if results = [] then "No results found for: " ++ query
    else formatResults query results count

/-- The effective count computed by `execute` (line 76):
`min(max(count or self.max_results, 1), 10)`.  Python `or` falls through
to `self.max_results` when `count` is `None` or the falsy integer `0`. -/
def effectiveCount (count : Option Int) (maxResults : Int) : Int :=
  let base : Int :=
    match count with
    | none => maxResults
    | some c => if c = 0 then maxResults else c
  min (max base 1) 10

/-- The instance state of `MCPWebSearchTool`: `max_results`, `_process`
(a spawned handle or `None`), `_initialized` (here `initFlag`). -/
structure MCPWebSearchTool where
  max_results : Int
  process : Option Nat
  initFlag : Bool
deriving DecidableEq, Repr

/-- `__init__(max_results)` (lines 30-39). -/
def MCPWebSearchTool.make (maxResults : Int) : MCPWebSearchTool :=
  { max_results := maxResults, process := none, initFlag := false }

/-- `_initialize_mcp` (lines 41-60) as a state transformer over the spawn
outcome: already initialized returns `True` unchanged; a successful spawn
stores the handle and sets the flag; a failed spawn returns `False`
unchanged. -/
def MCPWebSearchTool.initMCP (s : MCPWebSearchTool) (spawn : Option Nat) :
    Bool × MCPWebSearchTool :=
  if s.initFlag then (true, s)
  else
    match spawn with
    | some h => (true, { s with process := some h, initFlag := true })
    | none => (false, s)

/-- `cleanup` (lines 205-209): if a process handle exists, kill it and
reset `_initialized` (the handle field itself is not cleared). -/
def MCPWebSearchTool.cleanup (s : MCPWebSearchTool) : MCPWebSearchTool :=
  match s.process with
  | some _ => { s with initFlag := false }
  | none => s

/-- `execute(query, count)` (lines 62-82): clamp the count, call
`_search_fallback` and return its text.  `_search_fallback` catches every
exception internally, so the outer `except` branch
(`f"Error searching: {e}"`) is unreachable and the call mutates no
instance field; the returned state is the input state. -/
def MCPWebSearchTool.execute (s : MCPWebSearchTool) (query : String)
    (count : Option Int) (outcome : HttpOutcome) : String × MCPWebSearchTool :=
  let n := effectiveCount count s.max_results
  (searchFallback query n.toNat outcome, s)

/-- Python `sub in s` substring test, auxiliary scan. -/
def containsAux (sub : List Char) : List Char → Bool
  | [] => sub.isEmpty
  | c :: rest => sub.isPrefixOf (c :: rest) || containsAux sub rest

/-- Python `sub in s` on strings. -/
def strContains (s sub : String) : Bool :=
  containsAux sub.toList s.toList

/-- A line of the formatted output produced with the three-space indent
(URL and description lines); title lines and the header are not
indented. -/
def isIndentedLine (l : String) : Bool :=
  l.toList.take 3 == [' ', ' ', ' ']

/-- Number of non-indented (numbered-entry) lines in a line list. -/
def numberedLineCount (lines : List String) : Nat :=
  (lines.filter (fun l => !(isIndentedLine l))).length

/-! ## Helper lemmas -/

theorem string_append_ne_empty (a b : String) (h : a.data ≠ []) : a ++ b ≠ "" := by
  intro e
  apply h
  have hd := congrArg String.data e
  rw [String.data_append] at hd
  exact (List.append_eq_nil.mp hd).1

theorem joinNL_cons (a : String) (l : List String) : ∃ t, joinNL (a :: l) = a ++ t := by
  cases l with
  | nil => exact ⟨"", (String.append_empty a).symm⟩
  | cons b rest =>
    exact ⟨"\n" ++ joinNL (b :: rest), by
      show a ++ "\n" ++ joinNL (b :: rest) = _
      rw [String.append_assoc]⟩

theorem isPrefixOf_self (l : List Char) : l.isPrefixOf l = true := by
  induction l with
  | nil => rfl
  | cons c cs ih => simp [List.isPrefixOf, ih]

theorem containsAux_append (sub pre : List Char) : containsAux sub (pre ++ sub) = true := by
  induction pre with
  | nil =>
    cases sub with
    | nil => rfl
    | cons c cs =>
      have h := isPrefixOf_self (c :: cs)
      simp [containsAux, h]
  | cons p ps ih =>
    simp [containsAux, ih]

theorem strContains_append (a q : String) : strContains (a ++ q) q = true := by
  show containsAux q.toList (a ++ q).data = true
  rw [String.data_append]
  exact containsAux_append q.data a.data

theorem topicsLoop_eq_filter_map (ts : List DDGTopic) :
    topicsLoop ts = (ts.filter (fun t => !t.hasTopics)).map
      (fun t => { title := t.text, url := t.firstURL, description := t.text }) := by
  induction ts with
  | nil => rfl
  | cons t ts ih =>
    by_cases h : t.hasTopics = true <;>
      simp [topicsLoop, h, ih, List.filter_cons]

theorem topicsLoop_description_eq_title (ts : List DDGTopic) (r : SearchResult)
    (h : r ∈ topicsLoop ts) : r.description = r.title := by
  rw [topicsLoop_eq_filter_map] at h
  obtain ⟨t, _, rfl⟩ := List.mem_map.mp h
  rfl

/-! ## Claim theorems -/

/-- C1: for every query, count argument (including absent) and HTTP
outcome, `execute` returns a non-empty string and (being a total
function, modelling that all exceptions are caught) never propagates an
error; the returned text is the failure message, the no-results fallback
message, or a results listing headed by the query. -/
theorem C1_execute_total_nonempty (s : MCPWebSearchTool) (q : String) (c : Option Int)
    (o : HttpOutcome) :
    (s.execute q c o).1 ≠ "" ∧
    ((∃ e, o = HttpOutcome.failure e ∧ (s.execute q c o).1 = "Search unavailable: " ++ e) ∨
     (s.execute q c o).1 = "No results found for: " ++ q ∨
     (∃ t, (s.execute q c o).1 = ("Results for: " ++ q ++ "\n") ++ t)) := by
  cases o with
  | failure e =>
    exact ⟨string_append_ne_empty _ _ (by decide), Or.inl ⟨e, rfl, rfl⟩⟩
  | success data =>
    set n := (effectiveCount c s.max_results).toNat with hn
    have hex : (s.execute q c (HttpOutcome.success data)).1 =
        (if extractResults q data n = [] then "No results found for: " ++ q
         else formatResults q (extractResults q data n) n) := rfl
    by_cases h : extractResults q data n = []
    · rw [hex, if_pos h]
      exact ⟨string_append_ne_empty _ _ (by decide), Or.inr (Or.inl rfl)⟩
    · rw [hex, if_neg h]
      obtain ⟨t, ht⟩ := joinNL_cons ("Results for: " ++ q ++ "\n")
        (entryLines 1 ((extractResults q data n).take n))
      have hfr : formatResults q (extractResults q data n) n =
          ("Results for: " ++ q ++ "\n") ++ t := ht
      refine ⟨?_, Or.inr (Or.inr ⟨t, hfr⟩)⟩
      rw [hfr]
      apply string_append_ne_empty
      rw [String.data_append]
      simp

/-- C2 counterexample: with the default `max_results = 5`, a `count` of
`0` yields an effective count of `5` (Python `count or self.max_results`
falls through on the falsy `0`), not `clamp(0, 1, 10) = 1` as the claim
states. -/
theorem C2_count_zero_counterexample :
    effectiveCount (some 0) 5 = 5 ∧ min (max (0 : Int) 1) 10 = 1 ∧
    effectiveCount (some 0) 5 ≠ min (max (0 : Int) 1) 10 := by decide

/-- C2 amended: for every present non-zero `count` the effective count is
`clamp(count, 1, 10)`; when `count` is absent or `0` it is the configured
default clamped to the same interval. -/
theorem C2_effective_count_amended (c m : Int) (h : c ≠ 0) :
    effectiveCount (some c) m = min (max c 1) 10 ∧
    effectiveCount none m = min (max m 1) 10 ∧
    effectiveCount (some 0) m = min (max m 1) 10 := by
  unfold effectiveCount
  simp [h]

/-- C2 witness: the amended statement evaluated at `count = 11`,
`max_results = 5`. -/
theorem C2_effective_count_amended_witness :
    (11 : Int) ≠ 0 ∧
    (effectiveCount (some 11) 5 = min (max (11 : Int) 1) 10 ∧
     effectiveCount none 5 = min (max (5 : Int) 1) 10 ∧
     effectiveCount (some 0) 5 = min (max (5 : Int) 1) 10) :=
  ⟨by decide, C2_effective_count_amended 11 5 (by decide)⟩

/-- C3 counterexample: when the backend fails with an exception, the
returned message is `"Search unavailable: <error>"`, which does not
contain the query `"anything"`. -/
theorem C3_failure_message_counterexample :
    searchFallback "anything" 5 (HttpOutcome.failure "timeout") =
      "Search unavailable: timeout" ∧
    strContains (searchFallback "anything" 5 (HttpOutcome.failure "timeout"))
      "anything" = false := by decide

/-- C3 amended: when the backend succeeds but extraction yields an empty
result set, the fallback message is `"No results found for: <query>"`
and contains the literal query text; when the backend fails, the message
is `"Search unavailable: <error>"`, which need not mention the query. -/
theorem C3_fallback_message_amended (q : String) (n : Nat) (data : DDGData) (e : String)
    (h : extractResults q data n = []) :
    searchFallback q n (HttpOutcome.success data) = "No results found for: " ++ q ∧
    strContains (searchFallback q n (HttpOutcome.success data)) q = true ∧
    searchFallback q n (HttpOutcome.failure e) = "Search unavailable: " ++ e := by
  have h1 : searchFallback q n (HttpOutcome.success data) = "No results found for: " ++ q := by
    simp [searchFallback, h]
  exact ⟨h1, by rw [h1]; exact strContains_append _ _, rfl⟩

/-- C3 witness: the amended statement evaluated on an empty payload and
the query `"anything"`. -/
theorem C3_fallback_message_amended_witness :
    extractResults "anything" ⟨"", none, "", []⟩ 5 = [] ∧
    (searchFallback "anything" 5 (HttpOutcome.success ⟨"", none, "", []⟩) =
       "No results found for: " ++ "anything" ∧
     strContains (searchFallback "anything" 5 (HttpOutcome.success ⟨"", none, "", []⟩))
       "anything" = true ∧
     searchFallback "anything" 5 (HttpOutcome.failure "boom") =
       "Search unavailable: " ++ "boom") :=
  ⟨by decide, C3_fallback_message_amended "anything" 5 ⟨"", none, "", []⟩ "boom" (by decide)⟩

/-- Concrete payload for C4: `Abstract` set, `Heading` present, and
`RelatedTopics` holding one category-grouping entry followed by one
direct-link entry. -/
def dataC4 : DDGData :=
  { abstract := "Python is a programming language.", heading := some "Python",
    abstractURL := "https://en.wikipedia.org/wiki/Python",
    relatedTopics :=
      [⟨true, "", ""⟩,
       ⟨false, "Python (programming language)", "https://duckduckgo.com/Python"⟩] }

/-- C4: extraction emits the abstract record first (title from `Heading`,
falling back to the query when `Heading` is absent, url from
`AbstractURL`, description from `Abstract`) exactly when `Abstract` is
non-empty, then one `{Text, FirstURL, Text}` record per non-grouping
entry among the first `count` related topics; on the concrete payload
with one grouping and one direct entry, exactly 2 records result, the
abstract first. -/
theorem C4_extraction_order :
    (∀ (q : String) (data : DDGData) (n : Nat),
      extractResults q data n =
        (if data.abstract = "" then []
         else [{ title := data.heading.getD q, url := data.abstractURL,
                 description := data.abstract }]) ++
        ((data.relatedTopics.take n).filter (fun t => !t.hasTopics)).map
          (fun t => { title := t.text, url := t.firstURL, description := t.text })) ∧
    extractResults "python" dataC4 5 =
      [{ title := "Python", url := "https://en.wikipedia.org/wiki/Python",
         description := "Python is a programming language." },
       { title := "Python (programming language)", url := "https://duckduckgo.com/Python",
         description := "Python (programming language)" }] := by
  refine ⟨fun q data n => ?_, by decide⟩
  unfold extractResults
  rw [topicsLoop_eq_filter_map]

theorem isIndentedLine_three_spaces (u : String) : isIndentedLine ("   " ++ u) = true := by
  have h : ("   " ++ u).toList = ' ' :: ' ' :: ' ' :: u.toList := by
    show ("   " ++ u).data = _
    rw [String.data_append]
    rfl
  show (("   " ++ u).toList.take 3 == [' ', ' ', ' ']) = true
  rw [h]
  rfl

theorem numberedLineCount_append (a b : List String) :
    numberedLineCount (a ++ b) = numberedLineCount a + numberedLineCount b := by
  simp [numberedLineCount, List.filter_append]

theorem numberedLineCount_indented (u : String) : numberedLineCount ["   " ++ u] = 0 := by
  simp [numberedLineCount, List.filter_cons, isIndentedLine_three_spaces]

theorem numberedLineCount_single_le (l : String) : numberedLineCount [l] ≤ 1 :=
  List.length_filter_le _ _

theorem numberedLineCount_entryLines (rs : List SearchResult) (i : Nat) :
    numberedLineCount (entryLines i rs) ≤ rs.length := by
  induction rs generalizing i with
  | nil => exact Nat.le_refl 0
  | cons r rs ih =>
    show numberedLineCount (((if cleanText r.title = "" then []
        else [toString i ++ ". " ++ takeChars (cleanText r.title) 100]) ++
       (if r.url = "" then [] else ["   " ++ r.url]) ++
       (if cleanText r.description ≠ "" ∧ cleanText r.description ≠ cleanText r.title then
          ["   " ++ takeChars (cleanText r.description) 150]
        else [])) ++ entryLines (i + 1) rs) ≤ rs.length + 1
    rw [numberedLineCount_append, numberedLineCount_append, numberedLineCount_append]
    have ht : numberedLineCount (if cleanText r.title = "" then []
        else [toString i ++ ". " ++ takeChars (cleanText r.title) 100]) ≤ 1 := by
      split
      · exact Nat.zero_le 1
      · exact numberedLineCount_single_le _
    have hu : numberedLineCount (if r.url = "" then [] else ["   " ++ r.url]) = 0 := by
      split
      · rfl
      · exact numberedLineCount_indented _
    have hd : numberedLineCount
        (if cleanText r.description ≠ "" ∧ cleanText r.description ≠ cleanText r.title then
          ["   " ++ takeChars (cleanText r.description) 150] else []) = 0 := by
      split
      · exact numberedLineCount_indented _
      · rfl
    have := ih (i + 1)
    omega

/-- C5: the rendered text is the join of the header and the per-result
lines over `results[:count]`, and the number of numbered (non-indented)
entry lines is at most the effective count, whatever the backend
produced. -/
theorem C5_numbered_entries_bound (q : String) (results : List SearchResult) (n : Nat) :
    formatResults q results n = joinNL (formatLines q results n) ∧
    numberedLineCount (entryLines 1 (results.take n)) ≤ n :=
  ⟨rfl, Nat.le_trans (numberedLineCount_entryLines _ _) (List.length_take_le n results)⟩

/-- C6 counterexample: a result whose title is empty (url non-empty) is
rendered with no numbered title line at all, so "for each result a
numbered title line" fails. -/
theorem C6_empty_title_counterexample :
    entryLines 1 [⟨"", "https://x", ""⟩] = ["   https://x"] ∧
    numberedLineCount (entryLines 1 [⟨"", "https://x", ""⟩]) = 0 ∧
    formatResults "q" [⟨"", "https://x", ""⟩] 5 = "Results for: q\n\n   https://x" := by
  decide

/-- A 150-character title, for the truncation example. -/
def title150 : String := String.mk (List.replicate 150 'a')

/-- The first 100 characters of `title150`. -/
def title100 : String := String.mk (List.replicate 100 'a')

/-- A 200-character description, for the truncation example. -/
def desc200 : String := String.mk (List.replicate 200 'b')

/-- The first 150 characters of `desc200`. -/
def desc150 : String := String.mk (List.replicate 150 'b')

/-- C6 amended: the formatter renders the header naming the query, and
for each result whose cleaned title is non-empty a numbered title line
hard-truncated to 100 characters with no ellipsis (a 150-character title
renders as its first 100 characters); an indented URL line when the url
is non-empty; an indented description line truncated to 150 characters,
omitted when the description is empty or equal to the title; a result
with an empty cleaned title gets no numbered title line. -/
theorem C6_formatter_amended :
    (∀ (q : String) (rs : List SearchResult) (n : Nat),
      (formatLines q rs n).head? = some ("Results for: " ++ q ++ "\n")) ∧
    entryLines 1 [⟨title150, "u", ""⟩] = ["1. " ++ title100, "   u"] ∧
    entryLines 1 [⟨"T", "", desc200⟩] = ["1. T", "   " ++ desc150] ∧
    entryLines 1 [⟨"T", "u", "T"⟩] = ["1. T", "   u"] ∧
    entryLines 1 [⟨"", "u", "D"⟩] = ["   u", "   D"] :=
  ⟨fun _ _ _ => rfl, by decide, by decide, by decide, by decide⟩

/-- Payload for C7: two direct-link topics carrying the same URL. -/
def dataDup : DDGData :=
  ⟨"", none, "",
   [⟨false, "A", "https://dup.example"⟩, ⟨false, "B", "https://dup.example"⟩]⟩

/-- C7 counterexample: a payload in which the same URL occurs in two
direct-link topics yields two emitted results with that URL — no
de-duplication happens. -/
theorem C7_no_dedup_counterexample :
    extractResults "q" dataDup 5 =
      [⟨"A", "https://dup.example", "A"⟩, ⟨"B", "https://dup.example", "B"⟩] ∧
    ((extractResults "q" dataDup 5).filter
      (fun r => r.url == "https://dup.example")).length = 2 := by decide

/-- C7 amended: the adapter performs no de-duplication by url: the number
of emitted results is the abstract record (when present) plus one per
non-grouping entry among the first `count` related topics, regardless of
repeated URLs. -/
theorem C7_no_dedup_amended (q : String) (data : DDGData) (n : Nat) :
    (extractResults q data n).length =
      (if data.abstract = "" then 0 else 1) +
      ((data.relatedTopics.take n).filter (fun t => !t.hasTopics)).length := by
  unfold extractResults
  rw [List.length_append, topicsLoop_eq_filter_map, List.length_map]
  by_cases h : data.abstract = "" <;> simp [h]

/-- Payload for C8: one direct-link topic with neither `Text` nor
`FirstURL`. -/
def dataBlank : DDGData := ⟨"", none, "", [⟨false, "", ""⟩]⟩

/-- C8 counterexample: a related topic with no `Text` and no `FirstURL`
is emitted as a result whose title and url are both empty. -/
theorem C8_blank_result_counterexample :
    extractResults "q" dataBlank 5 = [⟨"", "", ""⟩] ∧
    (extractResults "q" dataBlank 5).any (fun r => r.title == "" && r.url == "") = true := by
  decide

/-- C8 amended: the adapter can emit a result with both title and url
empty; what does hold of every emitted result is that its description
equals its title (related-topics branch) or is non-empty (abstract
branch, guarded by a non-empty `Abstract`). -/
theorem C8_emitted_fields_amended (q : String) (data : DDGData) (n : Nat)
    (r : SearchResult) (h : r ∈ extractResults q data n) :
    r.description = r.title ∨ r.description ≠ "" := by
  unfold extractResults at h
  rw [List.mem_append] at h
  cases h with
  | inl h1 =>
    by_cases ha : data.abstract = ""
    · rw [if_pos ha] at h1
      exact absurd h1 (List.not_mem_nil r)
    · rw [if_neg ha] at h1
      rw [List.mem_singleton] at h1
      subst h1
      exact Or.inr ha
  | inr h2 => exact Or.inl (topicsLoop_description_eq_title _ r h2)

/-- Payload for the C8 witness: one ordinary direct-link topic. -/
def dataPlain : DDGData := ⟨"", none, "", [⟨false, "x", "u"⟩]⟩

/-- C8 witness: the amended statement applied to the emitted result of a
concrete one-topic payload. -/
theorem C8_emitted_fields_amended_witness :
    (⟨"x", "u", "x"⟩ : SearchResult) ∈ extractResults "q" dataPlain 5 ∧
    ((⟨"x", "u", "x"⟩ : SearchResult).description = (⟨"x", "u", "x"⟩ : SearchResult).title ∨
     (⟨"x", "u", "x"⟩ : SearchResult).description ≠ "") :=
  ⟨by decide, C8_emitted_fields_amended "q" dataPlain 5 ⟨"x", "u", "x"⟩ (by decide)⟩

/-- Payload for C9: the first related topic is a category grouping, the
direct-link entry sits at position 2, beyond a count of 1. -/
def dataTrunc : DDGData :=
  ⟨"", none, "", [⟨true, "", ""⟩, ⟨false, "Direct", "https://direct.example"⟩]⟩

/-- C9: `RelatedTopics` is truncated to the first `count` entries before
grouping entries are filtered out: with `count = 1` and topics
`[grouping, direct]`, nothing is emitted (the whole call degrades to the
no-results message), although filtering before truncation would have
produced the direct-link result. -/
theorem C9_truncate_before_filter :
    extractResults "q" dataTrunc 1 = [] ∧
    ((dataTrunc.relatedTopics.filter (fun t => !t.hasTopics)).take 1).map
        (fun t => ({ title := t.text, url := t.firstURL,
                     description := t.text } : SearchResult)) =
      [⟨"Direct", "https://direct.example", "Direct"⟩] ∧
    searchFallback "q" 1 (HttpOutcome.success dataTrunc) = "No results found for: q" := by
  decide

/-- C10: `execute` leaves the instance state unchanged for every query,
count and HTTP outcome: `max_results`, `_process` and `_initialized`
keep their values, and in particular the subprocess handle is never
spawned or touched on this path. -/
theorem C10_execute_frame (s : MCPWebSearchTool) (q : String) (c : Option Int)
    (o : HttpOutcome) :
    (s.execute q c o).2 = s ∧
    (s.execute q c o).2.max_results = s.max_results ∧
    (s.execute q c o).2.process = s.process ∧
    (s.execute q c o).2.initFlag = s.initFlag :=
  ⟨rfl, rfl, rfl, rfl⟩

end Nanobot
